import Mathlib

/-!
Verification development for `agent.py`, a Groq-driven PDF-parser generator
with a bounded repair loop.  The Python source is shallowly embedded:

* pure helpers (`strip_code_fences`, `extract_table_preview`, the mismatch
  extraction of `main`) become Lean functions over `String` / `List`;
* the external effects of `main` (the Groq endpoint, `compile`, `pytest`,
  dynamic import) are an explicit environment `Env` of response functions,
  and the files `main` touches are an explicit state `FS`;
* the controller loop of `main` becomes the structurally recursive
  `runAttempts`, one unfolding per `for attempt in range(...)` iteration,
  and the startup checks become `runMain`.

Python strings are modelled as Lean `String` (a list of characters);
`str.strip()` is re-implemented as `pyStrip` over the ASCII whitespace
characters Python strips.
-/

/-! ### Code sanitizer (`strip_code_fences`, agent.py lines 69-74) -/

/-- The backtick character (U+0060), written via its code point. -/
def backtick : Char := Char.ofNat 96

/-- The characters Python's `str.strip()` removes: space, tab, newline,
carriage return, vertical tab, form feed (the ASCII whitespace of
`string.whitespace`). -/
def pySpace (c : Char) : Bool :=
  c = ' ' || c = '\t' || c = '\n' || c = '\r' || c = Char.ofNat 11 || c = Char.ofNat 12

/-- Python `str.strip()` on the character list: drop leading and trailing
whitespace. -/
def pyStripList (l : List Char) : List Char :=
  ((l.dropWhile pySpace).reverse.dropWhile pySpace).reverse

/-- Python `str.strip()`. -/
def pyStrip (s : String) : String :=
  String.mk (pyStripList s.data)

/-- The literal pattern of the regex `r"``````"` in `strip_code_fences`:
six consecutive backticks (the pattern has no capture group and no content
between the fences; `DOTALL`/`IGNORECASE` are irrelevant to it). -/
def fenceList : List Char := List.replicate 6 backtick

/-- The string matched by that pattern, `String.mk fenceList`. -/
def fenceMatch : String := String.mk fenceList

/-- Occurrence test for the literal pattern: `re.findall(r"``````", text)`
is nonempty exactly when six consecutive backticks occur in `text`. -/
def hasFence : List Char → Bool
  | [] => false
  | c :: rest => fenceList.isPrefixOf (c :: rest) || hasFence rest

/-- agent.py lines 69-74.  `re.findall(r"``````", text, re.DOTALL | re.IGNORECASE)`
returns one element per occurrence of six literal backticks, each element being
the matched text `"``````"` itself (the pattern has no group); the function
returns `code_blocks[0].strip()` when the list is nonempty and `text.strip()`
otherwise. -/
def strip_code_fences (text : String) : String :=
  if hasFence text.data then pyStrip fenceMatch else pyStrip text

/-! ### Mismatch extraction (agent.py lines 244-258) -/

/-- agent.py line 251: `[(er, ar) for er, ar in zip(df_expected.values.tolist(),
df_actual.values.tolist()) if er != ar]`.  Rows are already coerced to strings
(`astype(str)`), so a row is a `List String`. -/
def mismatchedPairs (expected actual : List (List String)) :
    List (List String × List String) :=
  (expected.zip actual).filter (fun pr => decide (pr.1 ≠ pr.2))

/-- agent.py lines 252-255: the `mismatches` dict, `mismatched[:5]` projected
to its expected rows and actual rows (the inner `list(map(str, ...))` is the
identity on rows that are already strings). -/
def extractMismatches (expected actual : List (List String)) :
    List (List String) × List (List String) :=
  (((mismatchedPairs expected actual).take 5).map Prod.fst,
   ((mismatchedPairs expected actual).take 5).map Prod.snd)

/-! ### Some facts about the sanitizer -/

theorem hasFence_iff (l : List Char) :
    hasFence l = true ↔ ∃ u v, l = u ++ fenceList ++ v := by
  induction l with
  | nil =>
    simp only [hasFence, Bool.false_eq_true, false_iff]
    rintro ⟨u, v, h⟩
    have : ([] : List Char).length = (u ++ fenceList ++ v).length := by rw [h]
    simp [fenceList] at this
    omega
  | cons c rest ih =>
    simp only [hasFence, Bool.or_eq_true, ih, List.isPrefixOf_iff_prefix]
    constructor
    · rintro (⟨v, hv⟩ | ⟨u, v, huv⟩)
      · exact ⟨[], v, by simpa using hv.symm⟩
      · exact ⟨c :: u, v, by simp [huv]⟩
    · rintro ⟨u, v, huv⟩
      match u with
      | [] =>
        exact Or.inl ⟨v, by simpa using huv.symm⟩
      | a :: u' =>
        right
        have : c = a ∧ rest = u' ++ fenceList ++ v := by
          constructor
          · have := congrArg (List.head? ·) huv
            simpa using this
          · have := congrArg (List.tail ·) huv
            simpa using this
        exact ⟨u', v, this.2⟩

theorem hasFence_of_middle (pre mid post : List Char)
    (h : hasFence mid = true) : hasFence (pre ++ mid ++ post) = true := by
  rw [hasFence_iff] at h ⊢
  obtain ⟨u, v, huv⟩ := h
  exact ⟨pre ++ u, v ++ post, by simp [huv]⟩

theorem dropWhile_self (p : Char → Bool) (l : List Char) :
    List.dropWhile p (List.dropWhile p l) = List.dropWhile p l := by
  induction l with
  | nil => simp
  | cons a t ih =>
    by_cases h : p a
    · simpa [List.dropWhile_cons, h] using ih
    · simp [List.dropWhile_cons, h]

theorem dropWhile_eq_self_of_append (p : Char → Bool) (x y : List Char)
    (h : List.dropWhile p (x ++ y) = x ++ y) : List.dropWhile p x = x := by
  match x with
  | [] => simp
  | a :: x' =>
    by_cases ha : p a
    · exfalso
      have hsub : (List.dropWhile p (x' ++ y)).Sublist (x' ++ y) :=
        List.dropWhile_sublist p
      have hlen : (List.dropWhile p ((a :: x') ++ y)).length ≤ (x' ++ y).length := by
        simpa [List.dropWhile_cons, ha] using hsub.length_le
      rw [h] at hlen
      simp only [List.length_cons, List.length_append] at hlen
      omega
    · simp [List.dropWhile_cons, ha]

/-- The stripped list sits in the middle of the original list. -/
theorem pyStripList_middle (l : List Char) :
    ∃ pre post, l = pre ++ pyStripList l ++ post := by
  refine ⟨l.takeWhile pySpace,
    ((l.dropWhile pySpace).reverse.takeWhile pySpace).reverse, ?_⟩
  unfold pyStripList
  set A := l.dropWhile pySpace with hA
  have h1 : l.takeWhile pySpace ++ A = l := List.takeWhile_append_dropWhile pySpace _
  have h2 : (A.reverse.dropWhile pySpace).reverse ++
      (A.reverse.takeWhile pySpace).reverse = A := by
    have : A.reverse.takeWhile pySpace ++ A.reverse.dropWhile pySpace = A.reverse :=
      List.takeWhile_append_dropWhile pySpace _
    calc (A.reverse.dropWhile pySpace).reverse ++ (A.reverse.takeWhile pySpace).reverse
        = (A.reverse.takeWhile pySpace ++ A.reverse.dropWhile pySpace).reverse := by
          rw [List.reverse_append]
      _ = A.reverse.reverse := by rw [this]
      _ = A := List.reverse_reverse A
  calc l = l.takeWhile pySpace ++ A := h1.symm
    _ = l.takeWhile pySpace ++ ((A.reverse.dropWhile pySpace).reverse ++
          (A.reverse.takeWhile pySpace).reverse) := by rw [h2]
    _ = _ := by rw [List.append_assoc]

theorem pyStripList_idem (l : List Char) :
    pyStripList (pyStripList l) = pyStripList l := by
  set A := l.dropWhile pySpace with hA
  have hAself : List.dropWhile pySpace A = A := dropWhile_self pySpace l
  set B := (A.reverse.dropWhile pySpace).reverse with hB
  have hBstrip : pyStripList l = B := rfl
  have hBtail : B ++ (A.reverse.takeWhile pySpace).reverse = A := by
    rw [hB]
    have h3 : A.reverse.takeWhile pySpace ++ A.reverse.dropWhile pySpace = A.reverse :=
      List.takeWhile_append_dropWhile pySpace _
    calc (A.reverse.dropWhile pySpace).reverse ++ (A.reverse.takeWhile pySpace).reverse
        = (A.reverse.takeWhile pySpace ++ A.reverse.dropWhile pySpace).reverse := by
          rw [List.reverse_append]
      _ = A.reverse.reverse := by rw [h3]
      _ = A := List.reverse_reverse A
  have hBself : List.dropWhile pySpace B = B := by
    apply dropWhile_eq_self_of_append pySpace B ((A.reverse.takeWhile pySpace).reverse)
    rw [hBtail]; exact hAself
  have hBrev : List.dropWhile pySpace B.reverse = B.reverse := by
    rw [hB, List.reverse_reverse]
    exact dropWhile_self pySpace A.reverse
  rw [hBstrip]
  unfold pyStripList
  rw [hBself, hBrev, List.reverse_reverse]

/-! ### PDF model and `extract_table_preview` (agent.py lines 48-67)

`pdfplumber` is external: a PDF is modelled by what the code reads from it —
per page, the extracted tables (rows of optional cell strings) and the
extracted text (`extract_text()` may return `None`). -/

/-- One page as the code sees it: `extract_tables()` and `extract_text()`. -/
structure PDFPage where
  tables : List (List (List (Option String)))
  text : Option String

/-- A PDF as the code sees it: its list of pages. -/
structure PDFDoc where
  pages : List PDFPage

/-- agent.py line 62: `[cell if cell else "" for cell in row]` — `None` and
`""` are both falsy and map to `""`. -/
def cleanRow (row : List (Option String)) : List String :=
  row.map (fun cell => cell.getD "")

/-- agent.py line 63: `any(cell.strip() for cell in clean_row)`. -/
def rowHasContent (r : List String) : Bool :=
  r.any (fun cell => decide (pyStrip cell ≠ ""))

/-- agent.py line 53: `candidate_pages = {0, total_pages // 2, total_pages - 1}`,
iterated as `sorted(candidate_pages)`.  Indices live in ℤ because Python's
`total_pages - 1` is `-1` on an empty PDF. -/
def candidatePages (total : Nat) : List Int :=
  List.insertionSort (fun a b => a ≤ b) ([0, (total : Int) / 2, (total : Int) - 1].dedup)

/-- agent.py lines 61-66, the inner `for row in table` loop: clean each row,
keep it when it has non-whitespace content, and return early (second
component `true`) as soon as the accumulated preview reaches `bound`
(`samples_per_section * len(candidate_pages)`); the length test runs after
each append. -/
def previewScanRows (bound : Nat) (acc : List (List String)) :
    List (List (Option String)) → List (List String) × Bool
  | [] => (acc, false)
  | row :: rest =>
    if rowHasContent (cleanRow row) then
      if bound ≤ (acc ++ [cleanRow row]).length then (acc ++ [cleanRow row], true)
      else previewScanRows bound (acc ++ [cleanRow row]) rest
    else previewScanRows bound acc rest

/-- agent.py lines 60-66, the `for table in tables` loop threading the early
return of the row loop. -/
def previewScanTables (bound : Nat) (acc : List (List String)) :
    List (List (List (Option String))) → List (List String) × Bool
  | [] => (acc, false)
  | t :: ts =>
    match previewScanRows bound acc t with
    | (acc2, true) => (acc2, true)
    | (acc2, false) => previewScanTables bound acc2 ts

/-- agent.py lines 54-66, the `for page_idx in sorted(candidate_pages)` loop:
skip out-of-range indices (`continue`), skip pages with no tables
(`if not tables: continue`), and stop at the first early return. -/
def previewScanPages (bound : Nat) (pages : List PDFPage) :
    List Int → List (List String) → List (List String)
  | [], acc => acc
  | idx :: rest, acc =>
    if idx < 0 || (pages.length : Int) ≤ idx then previewScanPages bound pages rest acc
    else if (pages.getD idx.toNat ⟨[], none⟩).tables = [] then
      previewScanPages bound pages rest acc
    else
      match previewScanTables bound acc (pages.getD idx.toNat ⟨[], none⟩).tables with
      | (acc2, true) => acc2
      | (acc2, false) => previewScanPages bound pages rest acc2

/-- agent.py lines 48-67: `extract_table_preview(pdf_path, samples_per_section)`.
The cap is `samples_per_section * len(candidate_pages)`. -/
def extract_table_preview (pdf : PDFDoc) (samples_per_section : Nat) : List (List String) :=
  previewScanPages (samples_per_section * (candidatePages pdf.pages.length).length)
    pdf.pages (candidatePages pdf.pages.length) []

/-- agent.py lines 262-263: `"\n\n".join(page.extract_text() or "" for page in
pdf.pages)`. -/
def fullPdfText (pdf : PDFDoc) : String :=
  String.intercalate "\n\n" (pdf.pages.map (fun pg => pg.text.getD ""))

/-- Python slicing `s[:n]` on a string. -/
def strTake (s : String) (n : Nat) : String :=
  String.mk (s.data.take n)

/-! ### Configuration and startup (agent.py lines 24-40, 174-196) -/

/-- One entry of `BANK_CONFIG` (agent.py lines 33-40). -/
structure BankCfg where
  sample_pdf : String
  expected_csv : String
  parser_path : String
  max_attempts : Nat

/-- agent.py lines 33-40: the fixed configuration table. -/
def BANK_CONFIG : List (String × BankCfg) :=
  [("icici",
    { sample_pdf := "data/icici/icici_sample.pdf"
      expected_csv := "data/icici/icici_expected.csv"
      parser_path := "custom_parsers/icici_parser.py"
      max_attempts := 3 })]

/-- Dict membership / lookup `BANK_CONFIG[args.target]` (agent.py lines 179-183). -/
def lookupBank (target : String) : Option BankCfg :=
  (BANK_CONFIG.find? (fun entry => entry.1 == target)).map Prod.snd

/-- agent.py line 28: `if not GROQ_API_KEY` — the key must be present and
non-empty (Python truthiness of `os.getenv`). -/
def keyTruthy : Option String → Bool
  | none => false
  | some s => if s = "" then false else true

/-- agent.py lines 221-233: the companion test file template, rendered with
the target name and the configured fixture paths, then `.strip()`-ed. -/
def testTemplate (target sample_pdf expected_csv : String) : String :=
  pyStrip ("\nimport pandas as pd\nfrom custom_parsers." ++ target ++ "_parser import parse\n\ndef test_parser():\n    df = parse(r\x22" ++ sample_pdf ++ "\x22)\n    expected = pd.read_csv(r\x22" ++ expected_csv ++ "\x22)\n    assert df.astype(str).equals(expected.astype(str))\n")

/-! ### The repair-loop controller (agent.py `main`, lines 174-295)

The two prompt strings passed to `call_groq` are pure formatting of their
inputs (agent.py lines 113-170, 213-214, 264-274); they never influence the
control flow, and the generation result is supplied by the environment, so a
prompt is embedded as the structured data the source formats into it. -/

/-- The (system, user) prompt pair, by the data each builder formats. -/
inductive PromptPair where
  /-- `build_initial_prompt(bank, headers, preview)` (lines 113-140). -/
  | initial (bank : String) (headers : List String) (preview : List (List String))
  /-- The inline syntax-repair prompts of lines 213-214: the system prompt is
  built from the `SyntaxError` text, the user prompt is the failing code. -/
  | syntaxRepair (errMsg : String) (code : String)
  /-- `build_repair_prompt(bank, code, failure_output, mismatches)` (lines 142-170). -/
  | repair (bank : String) (code : String) (failureOutput : String)
      (mismatches : List (List String) × List (List String))
  /-- The regex-fallback prompts of lines 264-274: schema plus the first 5000
  characters of the PDF's raw text. -/
  | fallback (bank : String) (headers : List String) (textExcerpt : String)

/-- The blocking external world of one run.  `genAt k` is the text returned by
the `k`-th `call_groq` invocation (a non-200 response raises and aborts the
whole run, so a completed run sees only successful responses);
`compileErr code` is `some message` when `compile(code, ..., 'exec')` raises
`SyntaxError`; `testOk code` / `testOutput code` are the `pytest` verdict and
captured output once `code` is the persisted parser (the companion test file,
fixed after first creation, is the only other input of the suite);
`parseRows code` is the dynamic-import diagnostic of lines 245-250 —
`none` when it raises (the `except` of line 256), otherwise the parsed rows
after `astype(str)`. -/
structure Env where
  genAt : Nat → String
  compileErr : String → Option String
  testOk : String → Bool
  testOutput : String → String
  parseRows : String → Option (List (List String))
  expectedRows : List (List String)
  csvHeaders : List String
  pdf : PDFDoc

/-- The files `main` writes: the parser destination (`parser_path`), the
companion test file (`tests/test_{target}.py`), and the quarantine copy
(`artifacts/{parser_path.name}`).  `none` = absent. -/
structure FS where
  parserFile : Option String
  testFile : Option String
  quarantineFile : Option String

/-- Event counters of one run: `call_groq` invocations, `run_tests`
invocations, loop iterations entered, and the generations / test runs made in
the regex-fallback branch (lines 260-289); plus fixture reads and prompt
builds, to state what the startup failure paths never do. -/
structure Stats where
  calls : Nat
  testRuns : Nat
  attempts : Nat
  fallbackCalls : Nat
  fallbackTestRuns : Nat
  fixtureReads : Nat
  promptsBuilt : Nat

/-- Exit code of `sys.exit` (or `0` when `main` returns), final files, and
the counters. -/
structure RunResult where
  exitCode : Nat
  fs : FS
  stats : Stats

/-- The empty disk. -/
def fs0 : FS := ⟨none, none, none⟩

/-- All counters zero. -/
def stats0 : Stats := ⟨0, 0, 0, 0, 0, 0, 0⟩

/-- agent.py lines 221-233: `if not test_file.exists(): ... write_text(...)` —
write the rendered template only when the file is absent. -/
def ensureTestFile (fs : FS) (content : String) : FS :=
  match fs.testFile with
  | some _ => fs
  | none => { fs with testFile := some content }

/-- agent.py lines 198-291: the `for attempt in range(1, max_attempts + 1)`
loop, one constructor case per remaining iteration (`n + 1` remaining means
`attempt == max_attempts` exactly when `n = 0`).  Falling out of the loop
(`0` remaining, possible only if `max_attempts == 0`) ends `main` normally,
exit code 0.  Each iteration: generate (lines 199-201), sanitize, syntax-check
(lines 204-215: final failure quarantines and exits 1, otherwise swap in the
syntax-repair prompts and `continue`), persist the candidate (lines 217-218),
ensure the companion test file (lines 221-233), run the tests (lines 235-239:
pass exits 0), extract mismatches best-effort (lines 244-258), and on the
final attempt run the one-shot regex fallback (lines 260-289: generate once,
syntax-check once — failure exits 1 with nothing persisted and no test run —
persist, test once, exit 0 or 1); otherwise build the repair prompts and loop
(line 291). -/
def runAttempts (env : Env) (target : String) (cfg : BankCfg)
    (headers : List String) : Nat → FS → PromptPair → Stats → RunResult
  | 0, fs, _p, st => { exitCode := 0, fs := fs, stats := st }
  | n + 1, fs, _p, st =>
    let code := strip_code_fences (env.genAt st.calls)
    let s1 : Stats := { st with attempts := st.attempts + 1, calls := st.calls + 1 }
    match env.compileErr code with
    | some msg =>
      if n = 0 then
        { exitCode := 1, fs := { fs with quarantineFile := some code }, stats := s1 }
      else
        runAttempts env target cfg headers n fs (PromptPair.syntaxRepair msg code)
          { s1 with promptsBuilt := s1.promptsBuilt + 1 }
    | none =>
      let fs2 := ensureTestFile { fs with parserFile := some code }
        (testTemplate target cfg.sample_pdf cfg.expected_csv)
      let s2 : Stats := { s1 with testRuns := s1.testRuns + 1 }
      if env.testOk code then
        { exitCode := 0, fs := fs2, stats := s2 }
      else
        let mm := match env.parseRows code with
          | some rows => extractMismatches env.expectedRows rows
          | none => ([], [])
        if n = 0 then
          let _pFallback := PromptPair.fallback target headers
            (strTake (fullPdfText env.pdf) 5000)
          let code2 := strip_code_fences (env.genAt s2.calls)
          let s3 : Stats := { s2 with calls := s2.calls + 1, fallbackCalls := s2.fallbackCalls + 1, promptsBuilt := s2.promptsBuilt + 1, fixtureReads := s2.fixtureReads + 1 }
          match env.compileErr code2 with
          | some _ => { exitCode := 1, fs := fs2, stats := s3 }
          | none =>
            let fs3 := { fs2 with parserFile := some code2 }
            let s4 : Stats := { s3 with testRuns := s3.testRuns + 1, fallbackTestRuns := s3.fallbackTestRuns + 1 }
            if env.testOk code2 then { exitCode := 0, fs := fs3, stats := s4 }
            else { exitCode := 1, fs := fs3, stats := s4 }
        else
          runAttempts env target cfg headers n fs2
            (PromptPair.repair target code (env.testOutput code) mm)
            { s2 with promptsBuilt := s2.promptsBuilt + 1 }

/-- agent.py lines 24-30 and 174-291: module startup then `main`.  `apiKey` is
`os.getenv("GROQ_API_KEY")`; a missing or empty key exits 1 before anything
else (lines 28-30).  An unknown target exits 1 before any fixture read or
network call (lines 179-181).  Otherwise the headers and the table preview
are read (lines 190-191, two fixture reads), the initial prompts are built
(line 196), and the attempt loop runs with the configured budget.  `fs` is
the disk state at startup, so re-runs of the controller start from the files
an earlier run left. -/
def runMain (apiKey : Option String) (target : String) (env : Env) (fs : FS) :
    RunResult :=
  if keyTruthy apiKey = false then { exitCode := 1, fs := fs, stats := stats0 }
  else
    match lookupBank target with
    | none => { exitCode := 1, fs := fs, stats := stats0 }
    | some cfg =>
      let headers := env.csvHeaders
      let preview := extract_table_preview env.pdf 2
      runAttempts env target cfg headers cfg.max_attempts fs
        (PromptPair.initial target headers preview)
        { stats0 with fixtureReads := 2, promptsBuilt := 1 }

/-! ### Concrete environments and inputs used by witnesses and counterexamples -/

/-- A generation text holding a normal three-backtick fenced block with
commentary around it. -/
def fencedExample : String :=
  "Here is the parser:\n" ++ String.mk (List.replicate 3 backtick) ++
    "python\nx = 1\n" ++ String.mk (List.replicate 3 backtick) ++ "\nEnjoy!"

/-- An environment whose first candidate compiles and passes the tests. -/
def envPass : Env :=
  { genAt := fun _ => "import pandas as pd\n"
    compileErr := fun _ => none
    testOk := fun _ => true
    testOutput := fun _ => ""
    parseRows := fun _ => some [["row"]]
    expectedRows := [["row"]]
    csvHeaders := ["Date", "Description", "Debit Amt", "Credit Amt", "Balance"]
    pdf := ⟨[⟨[[[some "Date", some "Description"]]], some "text"⟩]⟩ }

/-- An environment where every generated candidate fails the syntax check. -/
def envSynFail : Env :=
  { envPass with genAt := fun _ => "def (", compileErr := fun _ => some "invalid syntax", testOk := fun _ => false }

/-- An environment where every candidate compiles but every test run fails. -/
def envTestFail : Env :=
  { envPass with testOk := fun _ => false, testOutput := fun _ => "1 failed" }

/-- The `icici` entry of `BANK_CONFIG`. -/
def iciciCfg : BankCfg :=
  { sample_pdf := "data/icici/icici_sample.pdf"
    expected_csv := "data/icici/icici_expected.csv"
    parser_path := "custom_parsers/icici_parser.py"
    max_attempts := 3 }

theorem lookupBank_icici : lookupBank "icici" = some iciciCfg := rfl

/-! ### C1 — the sanitizer never extracts a fenced block -/

/-- C1: the claim says `strip_code_fences` extracts the largest fenced code
block when one is present.  The code's regex is the literal `r"``````"` (six
backticks, no capture group), so on a text holding an ordinary three-backtick
fenced block plus commentary the function returns the whole trimmed text, not
the block's contents — contradicting the claim, the spec, and the function's
own comment ("Try to capture the largest Python code block"). -/
theorem C1_fenced_block_not_extracted :
    strip_code_fences fencedExample = fencedExample ∧
    fencedExample ≠ "x = 1" := by
  constructor
  · rfl
  · decide

/-! ### C4 — mismatch extraction keeps the first five mismatches -/

/-- C4: for every pair of expected and actual row sequences, the mismatch
extraction collects at most 5 expected rows and 5 actual rows, and the pairs
collected are exactly the first 5 mismatching (expected-row, actual-row)
pairs, in order. -/
theorem C4_mismatch_extraction_take5 (expected actual : List (List String)) :
    (extractMismatches expected actual).1.length ≤ 5 ∧
    (extractMismatches expected actual).2.length ≤ 5 ∧
    ((extractMismatches expected actual).1.zip (extractMismatches expected actual).2)
      = (mismatchedPairs expected actual).take 5 := by
  refine ⟨?_, ?_, ?_⟩
  · simp only [extractMismatches, List.length_map, List.length_take]
    omega
  · simp only [extractMismatches, List.length_map, List.length_take]
    omega
  · simp only [extractMismatches, List.zip_map']
    simp

/-! ### C6 — the sanitizer is idempotent -/

theorem hasFence_pyStrip_false (t : String) (h : hasFence t.data = false) :
    hasFence (pyStrip t).data = false := by
  cases hh : hasFence (pyStrip t).data with
  | false => rfl
  | true =>
    exfalso
    have hh' : hasFence (pyStripList t.data) = true := hh
    obtain ⟨pre, post, hmid⟩ := pyStripList_middle t.data
    have : hasFence t.data = true := by
      rw [hmid]; exact hasFence_of_middle pre _ post hh'
    rw [h] at this
    exact Bool.false_ne_true this

/-- C6: sanitization is idempotent — applying `strip_code_fences` to its own
output returns that output unchanged, for every input text. -/
theorem C6_sanitizer_idempotent (t : String) :
    strip_code_fences (strip_code_fences t) = strip_code_fences t := by
  unfold strip_code_fences
  by_cases h : hasFence t.data = true
  · simp only [h, if_true]
    have hf : hasFence (pyStrip fenceMatch).data = true := by decide
    simp [hf]
  · have h' : hasFence t.data = false := by
      cases hht : hasFence t.data with
      | false => rfl
      | true => exact absurd hht h
    have hs : hasFence (pyStrip t).data = false := hasFence_pyStrip_false t h'
    simp only [h', Bool.false_eq_true, if_false, hs]
    show pyStrip (pyStrip t) = pyStrip t
    unfold pyStrip
    exact congrArg String.mk (pyStripList_idem t.data)

/-! ### C8 — absent credential: immediate exit, nothing else happens -/

/-- C8: with the API key absent from the environment the process exits with
code 1 before any other work — no fixture read, no prompt built, no network
call, and the disk untouched. -/
theorem C8_missing_key_immediate_exit (target : String) (env : Env) (fs : FS) :
    (runMain none target env fs).exitCode = 1 ∧
    (runMain none target env fs).stats.calls = 0 ∧
    (runMain none target env fs).stats.fixtureReads = 0 ∧
    (runMain none target env fs).stats.promptsBuilt = 0 ∧
    (runMain none target env fs).stats.testRuns = 0 ∧
    (runMain none target env fs).fs = fs := by
  simp [runMain, keyTruthy, stats0]

/-! ### C7 — unknown target: exit 1 and no network call -/

/-- C7: with the credential present but the target identifier missing from
`BANK_CONFIG`, the process exits with code 1 and the generation endpoint is
never called. -/
theorem C7_unknown_target_no_network (key target : String) (env : Env) (fs : FS)
    (hkey : key ≠ "") (htarget : lookupBank target = none) :
    (runMain (some key) target env fs).exitCode = 1 ∧
    (runMain (some key) target env fs).stats.calls = 0 := by
  simp [runMain, keyTruthy, hkey, htarget, stats0]

/-- Witness for C7 at a concrete unknown target. -/
theorem C7_witness :
    ("groq-key" ≠ "" ∧ lookupBank "sbi" = none) ∧
    (runMain (some "groq-key") "sbi" envPass fs0).exitCode = 1 ∧
    (runMain (some "groq-key") "sbi" envPass fs0).stats.calls = 0 :=
  ⟨⟨by decide, rfl⟩, C7_unknown_target_no_network "groq-key" "sbi" envPass fs0 (by decide) rfl⟩

/-! ### C3 — final-attempt syntax failure: quarantine, exit 1, no persist, no run -/

/-- C3: when the syntax check fails on the final attempt (one iteration left),
the controller writes the invalid candidate to the quarantine location, exits
with failure status 1, leaves the configured parser destination exactly as it
was (the invalid candidate is never written there), and never executes it —
no test run and no fallback happen. -/
theorem C3_final_syntax_failure_quarantine (env : Env) (target : String)
    (cfg : BankCfg) (headers : List String) (fs : FS) (p : PromptPair)
    (st : Stats) (msg : String)
    (hcomp : env.compileErr (strip_code_fences (env.genAt st.calls)) = some msg) :
    (runAttempts env target cfg headers 1 fs p st).exitCode = 1 ∧
    (runAttempts env target cfg headers 1 fs p st).fs.quarantineFile
      = some (strip_code_fences (env.genAt st.calls)) ∧
    (runAttempts env target cfg headers 1 fs p st).fs.parserFile = fs.parserFile ∧
    (runAttempts env target cfg headers 1 fs p st).fs.testFile = fs.testFile ∧
    (runAttempts env target cfg headers 1 fs p st).stats.testRuns = st.testRuns ∧
    (runAttempts env target cfg headers 1 fs p st).stats.fallbackCalls
      = st.fallbackCalls := by
  simp [runAttempts, hcomp]

/-- Witness for C3: a concrete run whose only attempt returns invalid syntax. -/
theorem C3_witness :
    envSynFail.compileErr (strip_code_fences (envSynFail.genAt stats0.calls))
      = some "invalid syntax" ∧
    (runAttempts envSynFail "icici" iciciCfg [] 1 fs0
      (PromptPair.initial "icici" [] []) stats0).exitCode = 1 ∧
    (runAttempts envSynFail "icici" iciciCfg [] 1 fs0
      (PromptPair.initial "icici" [] []) stats0).fs.parserFile = fs0.parserFile :=
  ⟨rfl,
   (C3_final_syntax_failure_quarantine envSynFail "icici" iciciCfg [] fs0
     (PromptPair.initial "icici" [] []) stats0 "invalid syntax" rfl).1,
   (C3_final_syntax_failure_quarantine envSynFail "icici" iciciCfg [] fs0
     (PromptPair.initial "icici" [] []) stats0 "invalid syntax" rfl).2.2.1⟩

/-! ### C9 — first candidate passes: one attempt, success, nothing more -/

/-- C9: when the first generated candidate compiles and passes the test
suite, the controller exits with success status 0 after exactly one attempt:
one generation call, one test run, and no fallback. -/
theorem C9_first_attempt_success (key : String) (env : Env) (fs : FS)
    (hkey : key ≠ "")
    (hcomp : env.compileErr (strip_code_fences (env.genAt 0)) = none)
    (htest : env.testOk (strip_code_fences (env.genAt 0)) = true) :
    (runMain (some key) "icici" env fs).exitCode = 0 ∧
    (runMain (some key) "icici" env fs).stats.attempts = 1 ∧
    (runMain (some key) "icici" env fs).stats.calls = 1 ∧
    (runMain (some key) "icici" env fs).stats.testRuns = 1 ∧
    (runMain (some key) "icici" env fs).stats.fallbackCalls = 0 := by
  simp [runMain, keyTruthy, hkey, lookupBank_icici, iciciCfg, runAttempts,
    stats0, hcomp, htest]

/-- Witness for C9 at a concrete passing environment. -/
theorem C9_witness :
    ("groq-key-w9" ≠ "" ∧
     envPass.compileErr (strip_code_fences (envPass.genAt 0)) = none ∧
     envPass.testOk (strip_code_fences (envPass.genAt 0)) = true) ∧
    (runMain (some "groq-key-w9") "icici" envPass fs0).exitCode = 0 ∧
    (runMain (some "groq-key-w9") "icici" envPass fs0).stats.attempts = 1 :=
  ⟨⟨by decide, rfl, rfl⟩,
   (C9_first_attempt_success "groq-key-w9" envPass fs0 (by decide) rfl rfl).1,
   (C9_first_attempt_success "groq-key-w9" envPass fs0 (by decide) rfl rfl).2.1⟩

/-! ### Loop invariants of `runAttempts` -/

theorem ensureTestFile_of_some (fs : FS) (content t : String)
    (h : fs.testFile = some t) : (ensureTestFile fs content).testFile = some t := by
  simp [ensureTestFile, h]

/-- An existing companion test file survives any number of remaining
attempts untouched. -/
theorem runAttempts_preserves_testFile (env : Env) (target : String)
    (cfg : BankCfg) (headers : List String) :
    ∀ (n : Nat) (fs : FS) (p : PromptPair) (st : Stats) (t : String),
      fs.testFile = some t →
      (runAttempts env target cfg headers n fs p st).fs.testFile = some t := by
  intro n
  induction n with
  | zero => intro fs p st t h; simpa [runAttempts] using h
  | succ n ih =>
    intro fs p st t h
    simp only [runAttempts]
    cases hc : env.compileErr (strip_code_fences (env.genAt st.calls)) with
    | some msg =>
      by_cases hn : n = 0
      · simp [hn, h]
      · simp only [hn, if_false]
        exact ih fs _ _ t h
    | none =>
      have h2 : (ensureTestFile { fs with parserFile := some (strip_code_fences (env.genAt st.calls)) } (testTemplate target cfg.sample_pdf cfg.expected_csv)).testFile = some t :=
        ensureTestFile_of_some _ _ t h
      cases hT : env.testOk (strip_code_fences (env.genAt st.calls)) with
      | true => simpa using h2
      | false =>
        by_cases hn : n = 0
        · simp only [hn, if_true, if_false, Bool.false_eq_true]
          cases hc2 : env.compileErr (strip_code_fences (env.genAt (st.calls + 1))) with
          | some msg2 => simpa using h2
          | none =>
            cases hT2 : env.testOk (strip_code_fences (env.genAt (st.calls + 1))) with
            | true => simpa using h2
            | false => simpa using h2
        · simp only [hn, if_false, Bool.false_eq_true]
          exact ih _ _ _ t h2

/-- At most one regex-fallback generation ever happens in a run of the loop. -/
theorem runAttempts_fallbackCalls_le (env : Env) (target : String)
    (cfg : BankCfg) (headers : List String) :
    ∀ (n : Nat) (fs : FS) (p : PromptPair) (st : Stats),
      (runAttempts env target cfg headers n fs p st).stats.fallbackCalls
        ≤ st.fallbackCalls + 1 := by
  intro n
  induction n with
  | zero => intro fs p st; simp [runAttempts]
  | succ n ih =>
    intro fs p st
    simp only [runAttempts]
    cases hc : env.compileErr (strip_code_fences (env.genAt st.calls)) with
    | some msg =>
      by_cases hn : n = 0
      · simp [hn]
      · simp only [hn, if_false]
        exact ih fs _ _
    | none =>
      cases hT : env.testOk (strip_code_fences (env.genAt st.calls)) with
      | true => simp
      | false =>
        by_cases hn : n = 0
        · simp only [hn, if_true, if_false, Bool.false_eq_true]
          cases hc2 : env.compileErr (strip_code_fences (env.genAt (st.calls + 1))) with
          | some msg2 => simp
          | none =>
            cases hT2 : env.testOk (strip_code_fences (env.genAt (st.calls + 1))) with
            | true => simp
            | false => simp
        · simp only [hn, if_false, Bool.false_eq_true]
          exact le_trans (ih _ _ _) (by simp)

/-- When every candidate compiles and every test run fails, a run with at
least one attempt ends with failure status after exactly one fallback
generation and exactly one fallback test run. -/
theorem runAttempts_allFail (env : Env) (target : String) (cfg : BankCfg)
    (headers : List String)
    (hc : ∀ s, env.compileErr s = none) (ht : ∀ s, env.testOk s = false) :
    ∀ (n : Nat) (fs : FS) (p : PromptPair) (st : Stats), 1 ≤ n →
      (runAttempts env target cfg headers n fs p st).exitCode = 1 ∧
      (runAttempts env target cfg headers n fs p st).stats.fallbackCalls
        = st.fallbackCalls + 1 ∧
      (runAttempts env target cfg headers n fs p st).stats.fallbackTestRuns
        = st.fallbackTestRuns + 1 := by
  intro n
  induction n with
  | zero =>
    intro fs p st h
    exact absurd h (by omega)
  | succ n ih =>
    intro fs p st _
    by_cases hn : n = 0
    · subst hn
      simp [runAttempts, hc, ht]
    · simp only [runAttempts, hc, ht, hn, if_false, Bool.false_eq_true]
      simpa using ih _ _ _ (Nat.one_le_iff_ne_zero.mpr hn)

/-! ### C5 — the companion test file is written at most once -/

/-- C5: the companion test file is created at most once per target — when it
already exists on disk, neither the attempt that reaches the persist-and-test
stage nor any later run of the controller modifies its contents.  The first
conjunct covers the remaining attempts of a running loop from any state, the
second covers a whole later controller run started on a disk that already
holds the file. -/
theorem C5_testfile_preserved :
    (∀ (env : Env) (target : String) (cfg : BankCfg) (headers : List String)
        (n : Nat) (fs : FS) (p : PromptPair) (st : Stats) (t : String),
        fs.testFile = some t →
        (runAttempts env target cfg headers n fs p st).fs.testFile = some t) ∧
    (∀ (apiKey : Option String) (target : String) (env : Env) (fs : FS) (t : String),
        fs.testFile = some t →
        (runMain apiKey target env fs).fs.testFile = some t) := by
  constructor
  · exact runAttempts_preserves_testFile
  · intro apiKey target env fs t h
    unfold runMain
    by_cases hk : keyTruthy apiKey = false
    · simp [hk, h]
    · simp only [hk, if_false]
      cases hl : lookupBank target with
      | none => simpa using h
      | some cfg =>
        exact runAttempts_preserves_testFile env target cfg env.csvHeaders
          cfg.max_attempts fs _ _ t h

/-- A disk that already holds a companion test file. -/
def fsWithTest : FS := ⟨none, some "existing companion test", none⟩

/-- Witness for C5: a full failing re-run on a disk that already has the
companion test file leaves its contents unchanged. -/
theorem C5_witness :
    fsWithTest.testFile = some "existing companion test" ∧
    (runMain (some "groq-key-w5") "icici" envTestFail fsWithTest).fs.testFile
      = some "existing companion test" :=
  ⟨rfl, C5_testfile_preserved.2 (some "groq-key-w5") "icici" envTestFail fsWithTest
    "existing companion test" rfl⟩

/-! ### C2 — the regex fallback: not always exactly one -/

/-- C2 counterexample: a concrete run in which every attempt up to the budget
(3) fails validation — each generated candidate fails the syntax check, so no
test ever runs and the run terminates with failure — yet the controller
performs zero regex-fallback generations, not the exactly one the claim
demands.  (The fallback only runs when the final attempt fails the *test*;
a final-attempt syntax failure exits directly.) -/
theorem C2_counterexample_no_fallback :
    (runAttempts envSynFail "icici" iciciCfg [] iciciCfg.max_attempts fs0
      (PromptPair.initial "icici" [] []) stats0).exitCode = 1 ∧
    (runAttempts envSynFail "icici" iciciCfg [] iciciCfg.max_attempts fs0
      (PromptPair.initial "icici" [] []) stats0).stats.attempts = 3 ∧
    (runAttempts envSynFail "icici" iciciCfg [] iciciCfg.max_attempts fs0
      (PromptPair.initial "icici" [] []) stats0).stats.testRuns = 0 ∧
    (runAttempts envSynFail "icici" iciciCfg [] iciciCfg.max_attempts fs0
      (PromptPair.initial "icici" [] []) stats0).stats.fallbackCalls = 0 :=
  ⟨rfl, rfl, rfl, rfl⟩

/-- C2 (amended): in every run the regex-fallback strategy is attempted at
most once (first conjunct, over arbitrary environments and states); and when
every attempt fails validation *at the test stage* — every candidate
compiles, every test run fails — a run with at least one attempt performs
exactly one fallback generation and exactly one fallback test run before
terminating with failure status, with no further escalation.  When the final
attempt fails the syntax check instead, no fallback is attempted
(see the counterexample). -/
theorem C2_amended_fallback_at_most_once (env : Env) (target : String)
    (cfg : BankCfg) (headers : List String) (n : Nat) (fs : FS)
    (p : PromptPair) (st : Stats)
    (hc : ∀ s, env.compileErr s = none) (ht : ∀ s, env.testOk s = false)
    (hn : 1 ≤ n) :
    (∀ (env' : Env) (target' : String) (cfg' : BankCfg) (headers' : List String)
        (m : Nat) (fs' : FS) (p' : PromptPair) (st' : Stats),
        (runAttempts env' target' cfg' headers' m fs' p' st').stats.fallbackCalls
          ≤ st'.fallbackCalls + 1) ∧
    (runAttempts env target cfg headers n fs p st).exitCode = 1 ∧
    (runAttempts env target cfg headers n fs p st).stats.fallbackCalls
      = st.fallbackCalls + 1 ∧
    (runAttempts env target cfg headers n fs p st).stats.fallbackTestRuns
      = st.fallbackTestRuns + 1 :=
  ⟨runAttempts_fallbackCalls_le,
   (runAttempts_allFail env target cfg headers hc ht n fs p st hn).1,
   (runAttempts_allFail env target cfg headers hc ht n fs p st hn).2.1,
   (runAttempts_allFail env target cfg headers hc ht n fs p st hn).2.2⟩

/-- Witness for C2 (amended): a concrete all-tests-fail run over the full
budget performs exactly one fallback generation and one fallback test run. -/
theorem C2_amended_witness :
    (runAttempts envTestFail "icici" iciciCfg [] 3 fs0
      (PromptPair.initial "icici" [] []) stats0).stats.fallbackCalls = 1 ∧
    (runAttempts envTestFail "icici" iciciCfg [] 3 fs0
      (PromptPair.initial "icici" [] []) stats0).stats.fallbackTestRuns = 1 := by
  have h := C2_amended_fallback_at_most_once envTestFail "icici" iciciCfg [] 3 fs0
    (PromptPair.initial "icici" [] []) stats0 (fun _ => rfl) (fun _ => rfl)
    (by omega)
  exact ⟨h.2.2.1, h.2.2.2⟩

/-! ### C10 — bounds and row shape of the table preview -/

theorem previewScanRows_bound (bound : Nat) :
    ∀ (rows : List (List (Option String))) (acc : List (List String)),
      acc.length < bound →
      (previewScanRows bound acc rows).1.length ≤ bound ∧
      ((previewScanRows bound acc rows).2 = false →
        (previewScanRows bound acc rows).1.length < bound) := by
  intro rows
  induction rows with
  | nil =>
    intro acc h
    simp only [previewScanRows]
    exact ⟨Nat.le_of_lt h, fun _ => h⟩
  | cons row rest ih =>
    intro acc h
    simp only [previewScanRows]
    by_cases hcont : rowHasContent (cleanRow row) = true
    · by_cases hle : bound ≤ (acc ++ [cleanRow row]).length
      · simp only [hcont, if_true, hle]
        refine ⟨?_, fun hfalse => absurd hfalse (by simp)⟩
        simp only [List.length_append, List.length_cons, List.length_nil]
        omega
      · simp only [hcont, if_true, hle, if_false]
        exact ih _ (by simp only [List.length_append, List.length_cons] at hle ⊢; omega)
    · simp only [hcont, Bool.false_eq_true, if_false]
      exact ih _ h

theorem previewScanTables_bound (bound : Nat) :
    ∀ (tables : List (List (List (Option String)))) (acc : List (List String)),
      acc.length < bound →
      (previewScanTables bound acc tables).1.length ≤ bound ∧
      ((previewScanTables bound acc tables).2 = false →
        (previewScanTables bound acc tables).1.length < bound) := by
  intro tables
  induction tables with
  | nil =>
    intro acc h
    simp only [previewScanTables]
    exact ⟨Nat.le_of_lt h, fun _ => h⟩
  | cons t ts ih =>
    intro acc h
    simp only [previewScanTables]
    have hr := previewScanRows_bound bound t acc h
    rcases hrow : previewScanRows bound acc t with ⟨acc2, early⟩
    rw [hrow] at hr
    cases early
    · simpa using ih acc2 (hr.2 rfl)
    · simpa using hr.1

theorem previewScanPages_bound (bound : Nat) (pages : List PDFPage) :
    ∀ (idxs : List Int) (acc : List (List String)),
      acc.length < bound →
      (previewScanPages bound pages idxs acc).length ≤ bound := by
  intro idxs
  induction idxs with
  | nil =>
    intro acc h
    simpa [previewScanPages] using Nat.le_of_lt h
  | cons idx rest ih =>
    intro acc h
    simp only [previewScanPages]
    by_cases hguard : (idx < 0 || (pages.length : Int) ≤ idx) = true
    · simp only [hguard, if_true]
      exact ih acc h
    · simp only [hguard, Bool.false_eq_true, if_false]
      by_cases htab : (pages.getD idx.toNat ⟨[], none⟩).tables = []
      · rw [if_pos htab]
        exact ih acc h
      · rw [if_neg htab]
        have hta := previewScanTables_bound bound
          (pages.getD idx.toNat ⟨[], none⟩).tables acc h
        rcases htabs : previewScanTables bound acc
          (pages.getD idx.toNat ⟨[], none⟩).tables with ⟨acc2, early⟩
        rw [htabs] at hta
        cases early
        · simpa using ih acc2 (hta.2 rfl)
        · simpa using hta.1

theorem previewScanRows_content (bound : Nat) :
    ∀ (rows : List (List (Option String))) (acc : List (List String)),
      (∀ r ∈ acc, rowHasContent r = true) →
      ∀ r ∈ (previewScanRows bound acc rows).1, rowHasContent r = true := by
  intro rows
  induction rows with
  | nil => intro acc h; simpa [previewScanRows] using h
  | cons row rest ih =>
    intro acc h
    have hext : rowHasContent (cleanRow row) = true →
        ∀ r ∈ acc ++ [cleanRow row], rowHasContent r = true := by
      intro hc r hr
      rcases List.mem_append.mp hr with hm | hm
      · exact h r hm
      · simpa [List.mem_singleton.mp hm] using hc
    simp only [previewScanRows]
    by_cases hcont : rowHasContent (cleanRow row) = true
    · by_cases hle : bound ≤ (acc ++ [cleanRow row]).length
      · simp only [hcont, hle, if_true]
        exact fun r hr => hext hcont r hr
      · simp only [hcont, if_true, hle, if_false]
        exact ih _ (hext hcont)
    · simp only [hcont, Bool.false_eq_true, if_false]
      exact ih _ h

theorem previewScanTables_content (bound : Nat) :
    ∀ (tables : List (List (List (Option String)))) (acc : List (List String)),
      (∀ r ∈ acc, rowHasContent r = true) →
      ∀ r ∈ (previewScanTables bound acc tables).1, rowHasContent r = true := by
  intro tables
  induction tables with
  | nil => intro acc h; simpa [previewScanTables] using h
  | cons t ts ih =>
    intro acc h
    simp only [previewScanTables]
    have hr := previewScanRows_content bound t acc h
    rcases hrow : previewScanRows bound acc t with ⟨acc2, early⟩
    rw [hrow] at hr
    cases early
    · simpa using ih acc2 hr
    · simpa using hr

theorem previewScanPages_content (bound : Nat) (pages : List PDFPage) :
    ∀ (idxs : List Int) (acc : List (List String)),
      (∀ r ∈ acc, rowHasContent r = true) →
      ∀ r ∈ previewScanPages bound pages idxs acc, rowHasContent r = true := by
  intro idxs
  induction idxs with
  | nil => intro acc h; simpa [previewScanPages] using h
  | cons idx rest ih =>
    intro acc h
    simp only [previewScanPages]
    by_cases hguard : (idx < 0 || (pages.length : Int) ≤ idx) = true
    · simp only [hguard, if_true]
      exact ih acc h
    · simp only [hguard, Bool.false_eq_true, if_false]
      by_cases htab : (pages.getD idx.toNat ⟨[], none⟩).tables = []
      · rw [if_pos htab]
        exact ih acc h
      · rw [if_neg htab]
        have hta := previewScanTables_content bound
          (pages.getD idx.toNat ⟨[], none⟩).tables acc h
        rcases htabs : previewScanTables bound acc
          (pages.getD idx.toNat ⟨[], none⟩).tables with ⟨acc2, early⟩
        rw [htabs] at hta
        cases early
        · simpa using ih acc2 hta
        · simpa using hta

theorem candidatePages_length_pos (total : Nat) :
    1 ≤ (candidatePages total).length := by
  unfold candidatePages
  rw [List.length_insertionSort]
  have h0 : (0 : Int) ∈ ([0, (total : Int) / 2, (total : Int) - 1].dedup) :=
    List.mem_dedup.mpr (by simp)
  exact List.length_pos_of_mem h0

theorem candidatePages_length_le (total : Nat) :
    (candidatePages total).length ≤ 3 := by
  unfold candidatePages
  rw [List.length_insertionSort]
  simpa using (List.dedup_sublist [0, (total : Int) / 2, (total : Int) - 1]).length_le

/-- C10: for every PDF and every positive `samples_per_section`, the table
preview holds at most `samples_per_section * len(candidate_pages)` rows
(hence at most `samples_per_section * 3`, i.e. 6 rows at the default of 2),
and every returned row has at least one cell with non-whitespace content
(`None` cells having been replaced by `""` during cleaning). -/
theorem C10_preview_bounds (pdf : PDFDoc) (s : Nat) (hs : 1 ≤ s) :
    (extract_table_preview pdf s).length
      ≤ s * (candidatePages pdf.pages.length).length ∧
    (extract_table_preview pdf s).length ≤ s * 3 ∧
    ∀ r ∈ extract_table_preview pdf s, rowHasContent r = true := by
  have hpos : 0 < s * (candidatePages pdf.pages.length).length :=
    Nat.mul_pos hs (candidatePages_length_pos _)
  have h1 : (extract_table_preview pdf s).length
      ≤ s * (candidatePages pdf.pages.length).length := by
    unfold extract_table_preview
    exact previewScanPages_bound _ _ _ [] (by simpa using hpos)
  refine ⟨h1, le_trans h1 (Nat.mul_le_mul_left s (candidatePages_length_le _)), ?_⟩
  unfold extract_table_preview
  exact previewScanPages_content _ _ _ [] (by simp)

/-- A one-page PDF with one table: a header row and a data row. -/
def pdfW : PDFDoc :=
  ⟨[⟨[[[some "Date", some "Description"], [some "01-01-2024", none]]], some "page text"⟩]⟩

/-- Witness for C10 at a concrete PDF and the default of 2 samples per
section. -/
theorem C10_witness :
    (extract_table_preview pdfW 2).length
      ≤ 2 * (candidatePages pdfW.pages.length).length ∧
    (extract_table_preview pdfW 2).length ≤ 2 * 3 :=
  ⟨(C10_preview_bounds pdfW 2 (by omega)).1, (C10_preview_bounds pdfW 2 (by omega)).2.1⟩
